import Mathlib

/-!
# Verification of the LiteageOS installer core (`src/main.py`)

Shallow embedding of the pure decision logic and the orchestration traces of
the installer script.  Python functions become Lean functions; the effects of
the orchestrators (downloads, pushes, installs, uninstalls, log messages) are
made explicit as action lists; the external world (subprocess results, the
local file cache, the network) is passed in as explicit parameters or state.
Machine integers are `Int`/`Nat`; the RAM figure is a rational number.
-/

namespace Liteage

/-! ## Python string primitives used by the source -/

/-- Value of a list of ASCII decimal digits. -/
def digitsToNat (l : List Char) : Nat :=
  l.foldl (fun acc c => acc * 10 + (c.toNat - 48)) 0

/-- Model of Python `s.strip()` on the character list: drop whitespace from
both ends. -/
def stripChars (l : List Char) : List Char :=
  ((l.dropWhile Char.isWhitespace).reverse.dropWhile Char.isWhitespace).reverse

/-- Model of Python `int(s)` on a decimal string: surrounding whitespace is
stripped, an optional single sign is allowed, then one or more ASCII digits
(digit-grouping underscores are not modelled; no claim exercises them).
Returns `none` where Python raises `ValueError`. -/
def pyParseInt (s : String) : Option Int :=
  match stripChars s.data with
  | [] => none
  | '-' :: rest =>
      if rest ≠ [] ∧ rest.all Char.isDigit then some (-(digitsToNat rest : Int)) else none
  | '+' :: rest =>
      if rest ≠ [] ∧ rest.all Char.isDigit then some (digitsToNat rest : Int) else none
  | c :: rest =>
      if (c :: rest).all Char.isDigit then some (digitsToNat (c :: rest) : Int) else none

/-- Model of Python `s.isdigit()` for ASCII content: non-empty and all digits. -/
def pyIsDigitChars (l : List Char) : Bool :=
  l ≠ [] && l.all Char.isDigit

/-- Model of Python `s.lower()` (ASCII case folding suffices for the inputs
the script compares against). -/
def pyLower (s : String) : String :=
  ⟨s.data.map Char.toLower⟩

/-- Boolean substring containment, modelling Python `needle in hay`. -/
def containsSub (needle hay : List Char) : Bool :=
  match hay with
  | [] => needle.isPrefixOf ([] : List Char)
  | _ :: t => needle.isPrefixOf hay || containsSub needle t

/-- Model of Python `needle in hay` on strings. -/
def pyContains (needle hay : String) : Bool :=
  containsSub needle.data hay.data

/-- Helper for `pyWords`: split on whitespace runs, dropping empty tokens;
the accumulator holds the current token reversed. -/
def wordsAux : List Char → List Char → List (List Char)
  | [], acc => if acc = [] then [] else [acc.reverse]
  | c :: t, acc =>
      if c.isWhitespace then
        if acc = [] then wordsAux t [] else acc.reverse :: wordsAux t []
      else wordsAux t (c :: acc)

/-- Model of Python `s.split()` with no separator: split on whitespace runs,
dropping empty tokens. -/
def pyWords (s : String) : List String :=
  (wordsAux s.data []).map (fun l => ⟨l⟩)

/-- Helper for `pySplitlines`: split on newline characters. -/
def splitNL : List Char → List Char → List (List Char)
  | [], acc => [acc.reverse]
  | c :: t, acc =>
      if c = '\n' then acc.reverse :: splitNL t [] else splitNL t (c :: acc)

/-- Model of Python `s.splitlines()` for `\n`-separated blobs (the only line
terminator the claims exercise); a trailing newline yields a final empty
fragment which no marker search can match, so the difference is inert. -/
def pySplitlines (s : String) : List String :=
  (splitNL s.data []).map (fun l => ⟨l⟩)

/-! ## Version predictor (`calculate_liteageos_version`, main.py:420-440) -/

/-- Embedding of `calculate_liteageos_version(android_version_num, has_arm8,
is_memory_less_than_100gb)` (main.py:420-440). -/
def calculate_liteageos_version (android_version_num : Option Int)
    (has_arm8 : Bool) (is_memory_less_than_100gb : Bool) : String :=
  (match android_version_num with
   | some n => toString (n + 10)
   | none => "???")
  ++ (if has_arm8 then "+" else "")
  ++ (if is_memory_less_than_100gb then "S" else "")

/-- The glue in `main` (main.py:602-613): the RAM option is collapsed to the
boolean `is_memory_less_than_100gb`, defaulting to `False` when unresolved,
before `calculate_liteageos_version` is called. -/
def predict (osVersion : Option Int) (supportsArm64 : Bool)
    (ramGb : Option ℚ) : String :=
  let is_memory_less_than_100gb :=
    match ramGb with
    | some r => decide (r < 100)
    | none => false
  calculate_liteageos_version osVersion supportsArm64 is_memory_less_than_100gb

/-- The spec's formula for the predictor (spec §4.3), stated independently of
the source: base, then "+" exactly when arm64, then "S" exactly when the RAM
figure is resolved and strictly below 100. -/
def predictSpec (osVersion : Option Int) (supportsArm64 : Bool)
    (ramGb : Option ℚ) : String :=
  (match osVersion with
   | some n => toString (n + 10)
   | none => "???")
  ++ (if supportsArm64 then "+" else "")
  ++ (match ramGb with
      | some r => if r < 100 then "S" else ""
      | none => "")

/-- C1: the predictor agrees with the spec formula on every input, and the
three quoted examples evaluate as stated. -/
theorem C1_predictor_pure_total :
    (∀ os arm ram, predict os arm ram = predictSpec os arm ram)
    ∧ predict (some 13) true (some 50) = "23+S"
    ∧ predict none false (some 200) = "???"
    ∧ predict (some 8) true none = "18+" := by
  refine ⟨?_, by decide, by decide, by decide⟩
  intro os arm ram
  cases ram with
  | none => rfl
  | some r =>
      simp only [predict, predictSpec, calculate_liteageos_version]
      by_cases h : r < 100 <;> simp [h]

/-! ## Command runner and capability probe (`run_command`, main.py:140-183;
`check_aapt_availability`, main.py:201-215) -/

/-- Outcome of spawning an external process, as `subprocess.run` presents it
to `run_command`. -/
inductive SpawnResult where
  | ok (stdout : String)
  | calledProcessError
  | fileNotFound
  deriving DecidableEq, Repr

/-- Embedding of `run_command(command, check_output=True, ...)`
(main.py:140-183).  `Except.error c` models `sys.exit(c)`; `Except.ok none`
models the Python `return False` taken on `CalledProcessError`; `Except.ok
(some s)` is the stripped stdout.  The `FileNotFoundError` handler calls
`sys.exit(1)` on every tool, its `tool_name` parameter only varies the log
text. -/
def run_command_output (spawn : SpawnResult) : Except Nat (Option String) :=
  match spawn with
  | .ok out => .ok (some out.trim)
  | .calledProcessError => .ok none
  | .fileNotFound => .error 1

/-- Python truthiness of `run_command`'s check-output result: `False` and the
empty string are falsy. -/
def pyTruthy : Option String → Bool
  | none => false
  | some s => s ≠ ""

/-- Embedding of `check_aapt_availability()` (main.py:201-215): probes
`aapt version` through `run_command` and sets the global flag from the
result's truthiness.  Inherits `run_command`'s exit on a missing binary. -/
def check_aapt_availability (spawn : SpawnResult) : Except Nat Bool :=
  match run_command_output spawn with
  | .error c => .error c
  | .ok r => .ok (pyTruthy r)

/-- C3: the code at the failing input.  When the AAPT binary is absent the
spawn raises `FileNotFoundError` and `run_command` terminates the process
with exit status 1 instead of letting the probe report a false capability
flag: the degraded branch of `check_aapt_availability` is unreachable for an
absent binary (it is reached only when the binary exists but errors). -/
theorem C3_missing_aapt_exits :
    check_aapt_availability .fileNotFound = .error 1
    ∧ check_aapt_availability .calledProcessError = .ok false := by
  exact ⟨rfl, rfl⟩

/-! ## Device profiler: OS version (`get_android_os_version`, main.py:352-385) -/

/-- The primary source (main.py:356-364): the release-version property is
truthy and parses as an integer. -/
def releaseParse (releaseProp : Option String) : Option Int :=
  match releaseProp with
  | some s => if s ≠ "" then pyParseInt s else none
  | none => none

/-- The fallback guard (main.py:367-371): the API-level property is truthy
and all digits. -/
def sdkParse (sdkProp : Option String) : Option Int :=
  match sdkProp with
  | some s =>
      if s ≠ "" && pyIsDigitChars (stripChars s.data) then pyParseInt s else none
  | none => none

/-- The fixed API-level → OS-version table (main.py:372-382), including the
final `return api_level` fallthrough. -/
def apiToOs (api : Int) : Int :=
  if api ≥ 34 then 14
  else if api = 33 then 13
  else if api = 32 then 12
  else if api = 31 then 12
  else if api = 30 then 11
  else if api = 29 then 10
  else if api = 28 then 9
  else if api = 27 then 8
  else if api = 26 then 8
  else api

/-- Embedding of `get_android_os_version()` (main.py:352-385), with the two
`getprop` reads supplied as parameters (`none` models a failed command,
which Python sees as the falsy `False`). -/
def get_android_os_version (releaseProp sdkProp : Option String) : Option Int :=
  match releaseParse releaseProp with
  | some n => some n
  | none =>
    match sdkParse sdkProp with
    | some api => some (apiToOs api)
    | none => none

/-- C4 counterexample: at the unknown high API level 40 the code returns 14
(the `api_level >= 34` table row), not the raw API level 40 that the claim
asserts for levels not covered by the table. -/
theorem C4_high_api_counterexample :
    get_android_os_version none (some "40") = some 14
    ∧ (14 : Int) ≠ 40 := by
  exact ⟨by decide, by decide⟩

/-- C4 (amended): the release-version property parsed as an integer is the
primary source; if it is absent or non-numeric the API-level property is
mapped through the fixed table, where every API level of 34 or above maps to
14 and every level below the table (below 26) returns the raw API level
itself; only when both sources fail is the result unresolved. -/
theorem C4_os_version_fallback :
    (∀ rel sdk n, releaseParse rel = some n →
        get_android_os_version rel sdk = some n)
    ∧ (∀ rel sdk a, releaseParse rel = none → sdkParse sdk = some a →
        get_android_os_version rel sdk = some (apiToOs a))
    ∧ (∀ rel sdk, releaseParse rel = none → sdkParse sdk = none →
        get_android_os_version rel sdk = none)
    ∧ (∀ a : Int, a < 26 → apiToOs a = a)
    ∧ (∀ a : Int, 34 ≤ a → apiToOs a = 14) := by
  refine ⟨?_, ?_, ?_, ?_, ?_⟩
  · intro rel sdk n h; simp [get_android_os_version, h]
  · intro rel sdk a h1 h2; simp [get_android_os_version, h1, h2]
  · intro rel sdk h1 h2; simp [get_android_os_version, h1, h2]
  · intro a h; unfold apiToOs; split_ifs <;> omega
  · intro a h; unfold apiToOs; split_ifs <;> omega

/-- C4 witness: a numeric release string wins over the API level; a low API
level (25) is returned raw; both sources failing yields unresolved. -/
theorem C4_os_version_fallback_witness :
    get_android_os_version (some "13") (some "30") = some 13
    ∧ get_android_os_version none (some "25") = some 25
    ∧ get_android_os_version (some "Tiramisu") none = none := by
  refine ⟨C4_os_version_fallback.1 (some "13") (some "30") 13 (by decide), ?_, ?_⟩
  · have h := C4_os_version_fallback.2.1 none (some "25") 25 (by decide) (by decide)
    simpa using h
  · exact C4_os_version_fallback.2.2.1 (some "Tiramisu") none (by decide) (by decide)

/-! ## Device profiler: RAM (`get_device_ram_gb`, main.py:401-418) -/

/-- Round the rational `n / d` (with `d > 0`) to the nearest integer, ties
to even — the behaviour of Python 3's `round` — computed on integers so
that closed instances reduce in the kernel.  `f` is the floor, `r` the
remainder, and `2r` against `d` decides the half. -/
def roundHalfEvenND (n d : ℤ) : ℤ :=
  let f := Int.fdiv n d
  let r := n - f * d
  if 2 * r < d then f
  else if d < 2 * r then f + 1
  else if f % 2 = 0 then f else f + 1

/-- Model of `round(mem_kb / (1024 * 1024), 2)` (main.py:411), computed exactly:
rounding `kb / 2²⁰` to 2 decimals is rounding `kb·100 / 2²⁰` to the nearest
integer (ties to even) and dividing by 100.  No claim input sits on a tie,
where Python's binary floating point could additionally interfere. -/
def kbToGb (kb : ℤ) : ℚ :=
  (roundHalfEvenND (kb * 100) (1024 * 1024) : ℚ) / 100

/-- Embedding of `get_device_ram_gb()` (main.py:401-418).  The `meminfo`
blob read over the bridge is the parameter (`none` models a failed command).
The loop commits to the first line containing `"MemTotal:"`: a parse failure
on that line (missing or non-numeric second token) returns unresolved at
once, exactly as the `except` clause does. -/
def get_device_ram_gb (meminfo : Option String) : Option ℚ :=
  match meminfo with
  | none => none
  | some blob =>
    if blob ≠ "" then
      match (pySplitlines blob).find? (fun l => pyContains "MemTotal:" l) with
      | some line =>
          match (pyWords line)[1]? with
          | some tok =>
              match pyParseInt tok with
              | some kb => some (kbToGb kb)
              | none => none
          | none => none
      | none => none
    else none

/-- C10: a blob whose first `MemTotal:` line carries 3858000 kB yields
exactly 3.68 GB; a blob with no such line yields unresolved; and when the
first matching line's second token is missing or non-numeric the result is
unresolved immediately, even though a later line (1048576 kB = exactly 1 GB)
would parse. -/
theorem C10_ram_parsing :
    get_device_ram_gb (some "MemTotal:    3858000 kB") = some (368 / 100 : ℚ)
    ∧ (∀ blob, (∀ l ∈ pySplitlines blob, pyContains "MemTotal:" l = false) →
        get_device_ram_gb (some blob) = none)
    ∧ get_device_ram_gb (some ("MemTotal: abc kB" ++ "\n" ++ "MemTotal: 1048576 kB")) = none
    ∧ get_device_ram_gb (some ("MemTotal:" ++ "\n" ++ "MemTotal: 1048576 kB")) = none := by
  have hs : (pySplitlines "MemTotal:    3858000 kB").find?
      (fun l => pyContains "MemTotal:" l) = some "MemTotal:    3858000 kB" := by decide
  have hw : (pyWords "MemTotal:    3858000 kB")[1]? = some "3858000" := by decide
  have hp : pyParseInt "3858000" = some 3858000 := by decide
  have hr : roundHalfEvenND (3858000 * 100) (1024 * 1024) = 368 := by decide
  refine ⟨?_, ?_, by decide, by decide⟩
  · simp only [get_device_ram_gb, hs, hw, hp, kbToGb, hr]
    norm_num
    intro h
    exact absurd h (by decide)
  · intro blob h
    by_cases hb : blob = ""
    · simp [get_device_ram_gb, hb]
    · have hf : (pySplitlines blob).find? (fun l => pyContains "MemTotal:" l) = none := by
        refine List.find?_eq_none.mpr ?_
        intro l hl
        simp [h l hl]
      simp [get_device_ram_gb, hb, hf]

/-- C10 witness: a blob with no `MemTotal:` line resolves to nothing. -/
theorem C10_ram_parsing_witness :
    get_device_ram_gb (some "SwapTotal: 102400 kB") = none :=
  C10_ram_parsing.2.1 "SwapTotal: 102400 kB" (by decide)

/-! ## Asset resolver (`download_file`, main.py:242-273) -/

/-- The fixed base location of release assets (main.py:86). -/
def BASE_APK_RELEASE_URL : String :=
  "https://github.com/AleXDE54/liteageOS/releases/download/APKS/"

/-- The local cache directory (main.py:125). -/
def TEMP_DIR : String := "apks"

/-- Model of `os.path.join` for the forward-slash paths this script builds. -/
def pathJoin (d f : String) : String := d ++ "/" ++ f

/-- How a non-cached transfer plays out.  `preStreamError` is a
`RequestException` raised by `requests.get`/`raise_for_status`, before the
local file is opened; `midStreamError k` is one raised while iterating the
response body, after the file was opened for writing and `k` chunks were
written to it. -/
inductive XferOutcome where
  | success
  | preStreamError
  | midStreamError (chunks : Nat)
  deriving DecidableEq, Repr

/-- Embedding of `download_file(url, filename, target_dir)`
(main.py:242-273).  The local cache is the set of paths that exist, passed
as a predicate; the result is (returned path or `None`, cache afterwards,
number of `requests.get` invocations).  When the path already exists the
download is skipped outright.  On `midStreamError` the `open(filepath,
"wb")` has already created the file, and the `except` handler returns
`None` without removing it, so the (partial) file stays in the cache. -/
def download_file (url filename target_dir : String) (cache : String → Bool)
    (outcome : XferOutcome) : Option String × (String → Bool) × Nat :=
  let filepath := pathJoin target_dir filename
  if cache filepath then (some filepath, cache, 0)
  else
    match outcome with
    | .success => (some filepath, fun p => if p = filepath then true else cache p, 1)
    | .preStreamError => (none, cache, 1)
    | .midStreamError _ => (none, fun p => if p = filepath then true else cache p, 1)

/-- C7: a cached asset is returned with no transfer and an unchanged cache;
and starting from a cache without the asset, a successful resolve followed
by a second resolve of the same asset performs one transfer in total — the
second call performs none and still returns the path. -/
theorem C7_idempotent_fetch :
    (∀ url fn dir cache o, cache (pathJoin dir fn) = true →
        download_file url fn dir cache o = (some (pathJoin dir fn), cache, 0))
    ∧ (∀ url fn dir cache o2, cache (pathJoin dir fn) = false →
        (download_file url fn dir cache .success).2.2 = 1
        ∧ (download_file url fn dir (download_file url fn dir cache .success).2.1 o2).2.2 = 0
        ∧ (download_file url fn dir (download_file url fn dir cache .success).2.1 o2).1
            = some (pathJoin dir fn)) := by
  constructor
  · intro url fn dir cache o h
    simp [download_file, h]
  · intro url fn dir cache o2 h
    refine ⟨by simp [download_file, h], ?_, ?_⟩ <;>
      simp [download_file, h]

/-- C7 witness: resolving `Music.apk` twice against an initially empty cache
transfers once then zero times; resolving against a full cache transfers
never. -/
theorem C7_idempotent_fetch_witness :
    (download_file (BASE_APK_RELEASE_URL ++ "Music.apk") "Music.apk" TEMP_DIR
        (fun _ => false) .success).2.2 = 1
    ∧ (download_file (BASE_APK_RELEASE_URL ++ "Music.apk") "Music.apk" TEMP_DIR
        (download_file (BASE_APK_RELEASE_URL ++ "Music.apk") "Music.apk" TEMP_DIR
          (fun _ => false) .success).2.1 .success).2.2 = 0
    ∧ download_file (BASE_APK_RELEASE_URL ++ "Music.apk") "Music.apk" TEMP_DIR
        (fun _ => true) .success
        = (some (pathJoin TEMP_DIR "Music.apk"), (fun _ => true), 0) := by
  have h2 := C7_idempotent_fetch.2 (BASE_APK_RELEASE_URL ++ "Music.apk")
    "Music.apk" TEMP_DIR (fun _ => false) .success rfl
  exact ⟨h2.1, h2.2.1,
    C7_idempotent_fetch.1 (BASE_APK_RELEASE_URL ++ "Music.apk") "Music.apk"
      TEMP_DIR (fun _ => true) .success rfl⟩

/-- C8: the code at the failing input.  A transport error raised while
streaming `Music.apk` into an initially empty cache makes `download_file`
return `None`, yet the partially written file is left behind: the very
existence check that gates later downloads now reports it present. -/
theorem C8_partial_file_observable :
    (download_file (BASE_APK_RELEASE_URL ++ "Music.apk") "Music.apk" TEMP_DIR
        (fun _ => false) (.midStreamError 3)).1 = none
    ∧ (download_file (BASE_APK_RELEASE_URL ++ "Music.apk") "Music.apk" TEMP_DIR
        (fun _ => false) (.midStreamError 3)).2.1 (pathJoin TEMP_DIR "Music.apk") = true := by
  exact ⟨by decide, by decide⟩

/-! ## Configuration tables (main.py:92-108) -/

/-- The `LINEAGEOS_COMPONENTS` table (main.py:92-102): filename, description, optional
flag. -/
def LINEAGEOS_COMPONENTS : List (String × String × Bool) :=
  [("Music.apk", "Music Player", false),
   ("Phone.apk", "Phone App", false),
   ("Files.apk", "File Manager", false),
   ("Browser.apk", "Web Browser", false),
   ("Calc.apk", "Calculator", false),
   ("Recorder.apk", "Audio Recorder", false),
   ("Calender.apk", "Calendar", false),
   ("Gallery.apk", "Gallery Viewer", false),
   ("Aurora.apk", "Aurora Store (App Store)", true)]

/-- The keys of `LAUNCHERS` (main.py:105-108). -/
def LAUNCHERS_keys : List String :=
  ["Litechair.apk", "Litechair_legacy.apk"]

/-- The `WALLPAPER_FILENAME` constant (main.py:111). -/
def WALLPAPER_FILENAME : String := "wallpaper.jpg"

/-! ## Install orchestrator (`install_liteageos_components`, main.py:442-529) -/

/-- Observable steps of an install run.  Log-only outcomes are represented
by the message actions; `manualConfigMsg` is the advice block of
main.py:485-487 (package name unresolved: default-launcher setup must be
done by hand), `skipMsg` the per-component skip notice. -/
inductive IAction where
  | download (fn : String)
  | identify (fn : String)
  | queryInstalled (pkg : String)
  | askMakeDefault
  | setDefaultLauncher (pkg : String)
  | push (fn : String)
  | install (fn : String)
  | setWallpaperCmd
  | manualConfigMsg (fn : String)
  | skipMsg (fn : String)
  deriving DecidableEq, Repr

/-- The external world an install run observes: whether each asset resolves
locally (cached or fetched), the identifier-tool capability flag with the
package name its badging scan would extract, the device-side state, and the
replies/outcomes of the remaining bridge commands. -/
structure InstallEnv where
  downloadOk : String → Bool
  aapt_available : Bool
  aaptPkg : String → Option String
  deviceHasPkg : String → Bool
  userMakeDefault : String
  pushOk : String → Bool
  installOk : String → Bool
  deriving Inhabited

/-- Embedding of `get_package_name_from_apk` (main.py:217-240): with the
capability flag false it returns unresolved immediately; otherwise the
badging output scan yields `aaptPkg` (`none` for a failed tool run or no
`package: name=` line). -/
def get_package_name_from_apk (aapt_available : Bool)
    (aaptPkg : String → Option String) (fn : String) : Option String :=
  if aapt_available then aaptPkg fn else none

/-- Embedding of `push_and_install_apk` (main.py:275-298): always pushes; on
push failure stops with failure; otherwise installs and succeeds exactly
when `pm install -r` does. -/
def push_and_install_apk (env : InstallEnv) (fn : String) : List IAction × Bool :=
  if env.pushOk fn then ([.push fn, .install fn], env.installOk fn)
  else ([.push fn], false)

/-- Embedding of the launcher phase of `install_liteageos_components`
(main.py:447-489): resolve the asset, identify the package, then either the
already-installed dialogue or push/install followed by default-launcher
setup; with the package name unresolved only the manual-configuration
advice is emitted. -/
def installLauncherPhase (env : InstallEnv) (install_launcher_action : Bool)
    (chosen : String) : List IAction :=
  if install_launcher_action then
    .download chosen ::
    (if env.downloadOk chosen then
      .identify chosen ::
      (match get_package_name_from_apk env.aapt_available env.aaptPkg chosen with
       | some pkg =>
          .queryInstalled pkg ::
          (if env.deviceHasPkg pkg then
            .askMakeDefault ::
            (if pyLower env.userMakeDefault = "y" then [.setDefaultLauncher pkg] else [])
          else
            (push_and_install_apk env chosen).1 ++
            (if (push_and_install_apk env chosen).2 then [.setDefaultLauncher pkg] else []))
       | none => [.manualConfigMsg chosen])
     else [])
  else []

/-- Embedding of the body of the application loop (main.py:494-516): skip
launcher filenames, derive the install decision from the mandatory flag and
the single global optional-install answer, then resolve, identify and
push/install. -/
def processComponent (env : InstallEnv) (install_optional_apps_config : String)
    (fn : String) (optional : Bool) : List IAction :=
  if fn ∈ LAUNCHERS_keys then []
  else
    let install_app : Bool :=
      if !optional then true
      else if optional && (install_optional_apps_config == "y") then true
      else false
    if install_app then
      .download fn ::
      (if env.downloadOk fn then .identify fn :: (push_and_install_apk env fn).1
       else [])
    else [.skipMsg fn]

/-- The application loop over `LINEAGEOS_COMPONENTS` (main.py:494). -/
def installAppsPhase (env : InstallEnv) (install_optional_apps_config : String) :
    List IAction :=
  LINEAGEOS_COMPONENTS.flatMap
    (fun c => processComponent env install_optional_apps_config c.1 c.2.2)

/-- The wallpaper phase (main.py:519-526). -/
def installWallpaperPhase (env : InstallEnv) : List IAction :=
  .download WALLPAPER_FILENAME ::
  (if env.downloadOk WALLPAPER_FILENAME then
    .push WALLPAPER_FILENAME :: (if env.pushOk WALLPAPER_FILENAME then [.setWallpaperCmd] else [])
   else [])

/-- Embedding of `install_liteageos_components` (main.py:442-529): launcher phase, then
application loop, then wallpaper. -/
def install_liteageos_components (env : InstallEnv) (install_launcher_action : Bool)
    (chosen : String) (install_optional_apps_config : String) : List IAction :=
  installLauncherPhase env install_launcher_action chosen
  ++ installAppsPhase env install_optional_apps_config
  ++ installWallpaperPhase env

/-- Every action of the application-loop body carries the component's own
filename. -/
theorem processComponent_file {env flag fn opt a}
    (ha : a ∈ processComponent env flag fn opt) :
    a = .download fn ∨ a = .identify fn ∨ a = .push fn ∨ a = .install fn
    ∨ a = .skipMsg fn := by
  by_cases h1 : fn ∈ LAUNCHERS_keys <;>
    by_cases h2 : env.downloadOk fn = true <;>
      by_cases h3 : env.pushOk fn = true <;>
        by_cases h4 : (flag == "y") = true <;>
          cases opt <;>
            simp_all [processComponent, push_and_install_apk] <;> tauto

/-- With the global optional answer negative, the loop body for an optional
component reduces to the skip notice (or to nothing for a launcher key). -/
theorem processComponent_optional_neg (env : InstallEnv) {flag : String}
    (fn : String) (hflag : (flag == "y") = false) :
    processComponent env flag fn true
      = if fn ∈ LAUNCHERS_keys then [] else [.skipMsg fn] := by
  simp [processComponent, hflag]

/-- C6: in the application loop, an optional component is pushed/installed
only under the affirmative global flag — with the flag negative it yields
only the skip notice even when its asset resolves — while a mandatory
component whose asset resolves is pushed under either flag value; and over
the configured component table, a negative flag means the optional
`Aurora.apk` is never pushed. -/
theorem C6_optional_gating (env : InstallEnv) (flag fn : String)
    (hfn : fn ∉ LAUNCHERS_keys) :
    (flag ≠ "y" → IAction.push fn ∉ processComponent env flag fn true
        ∧ IAction.install fn ∉ processComponent env flag fn true)
    ∧ (flag = "y" → env.downloadOk fn = true →
        IAction.push fn ∈ processComponent env flag fn true)
    ∧ (env.downloadOk fn = true →
        IAction.push fn ∈ processComponent env flag fn false)
    ∧ (flag ≠ "y" → IAction.push "Aurora.apk" ∉ installAppsPhase env flag) := by
  refine ⟨?_, ?_, ?_, ?_⟩
  · intro hflag
    have hbeq : (flag == "y") = false := by
      simpa using hflag
    rw [processComponent_optional_neg env fn hbeq, if_neg hfn]
    simp
  · intro hflag hdl
    subst hflag
    simp only [processComponent, push_and_install_apk, if_neg hfn]
    simp [hdl]
    split <;> simp
  · intro hdl
    simp only [processComponent, push_and_install_apk, if_neg hfn]
    simp [hdl]
    split <;> simp
  · intro hflag hmem
    have hbeq : (flag == "y") = false := by
      simpa using hflag
    rw [installAppsPhase] at hmem
    rcases List.mem_flatMap.mp hmem with ⟨c, hc, hmemc⟩
    simp [LINEAGEOS_COMPONENTS] at hc
    rcases hc with rfl | rfl | rfl | rfl | rfl | rfl | rfl | rfl | rfl <;>
      try (rcases processComponent_file hmemc with h | h | h | h | h <;>
        exact absurd h (by decide))
    rw [processComponent_optional_neg env _ hbeq,
      if_neg (by decide : ("Aurora.apk" : String) ∉ LAUNCHERS_keys)] at hmemc
    simp at hmemc

/-- A concrete environment in which every asset resolves and every bridge
command succeeds, the identifier tool is available, and nothing is yet on
the device. -/
def envAllOk : InstallEnv where
  downloadOk := fun _ => true
  aapt_available := true
  aaptPkg := fun _ => some "app.lawnchair.nightly"
  deviceHasPkg := fun _ => false
  userMakeDefault := "n"
  pushOk := fun _ => true
  installOk := fun _ => true

/-- C6 witness: with the flag negative, the optional `Aurora.apk` is not
pushed (neither in its own loop body nor anywhere in the loop) while the
mandatory `Music.apk` is. -/
theorem C6_optional_gating_witness :
    IAction.push "Aurora.apk" ∉ processComponent envAllOk "n" "Aurora.apk" true
    ∧ IAction.push "Music.apk" ∈ processComponent envAllOk "n" "Music.apk" false
    ∧ IAction.push "Aurora.apk" ∉ installAppsPhase envAllOk "n" := by
  refine ⟨((C6_optional_gating envAllOk "n" "Aurora.apk" (by decide)).1 (by decide)).1,
    (C6_optional_gating envAllOk "n" "Music.apk" (by decide)).2.2.1 rfl,
    (C6_optional_gating envAllOk "n" "Aurora.apk" (by decide)).2.2.2 (by decide)⟩

/-- A concrete environment in which every asset resolves and every bridge
command succeeds but the identifier tool is unavailable. -/
def envNoAapt : InstallEnv where
  downloadOk := fun _ => true
  aapt_available := false
  aaptPkg := fun _ => some "app.lawnchair.nightly"
  deviceHasPkg := fun _ => false
  userMakeDefault := "n"
  pushOk := fun _ => true
  installOk := fun _ => true

/-- C2 counterexample: with the identifier tool unavailable and the launcher
asset resolving, the launcher phase is download, identification attempt,
manual-configuration advice — and nothing else.  In particular no push is
attempted, refuting the claim that push/install still happen. -/
theorem C2_no_push_counterexample :
    installLauncherPhase envNoAapt true "Litechair.apk"
      = [.download "Litechair.apk", .identify "Litechair.apk",
         .manualConfigMsg "Litechair.apk"]
    ∧ IAction.push "Litechair.apk" ∉ installLauncherPhase envNoAapt true "Litechair.apk" := by
  exact ⟨by decide, by decide⟩

/-- C2 (amended): when the identifier-tool capability is false the launcher
phase never pushes or installs the launcher asset, never attempts to set a
default home app, and — when the asset resolved — reports the
manual-configuration advice; the phase ends normally rather than failing
the run. -/
theorem C2_degraded_identification (env : InstallEnv) (chosen : String)
    (haapt : env.aapt_available = false) :
    (∀ fn, IAction.push fn ∉ installLauncherPhase env true chosen)
    ∧ (∀ fn, IAction.install fn ∉ installLauncherPhase env true chosen)
    ∧ (∀ p, IAction.setDefaultLauncher p ∉ installLauncherPhase env true chosen)
    ∧ (env.downloadOk chosen = true →
        IAction.manualConfigMsg chosen ∈ installLauncherPhase env true chosen) := by
  have hpkg : get_package_name_from_apk env.aapt_available env.aaptPkg chosen = none := by
    simp [get_package_name_from_apk, haapt]
  by_cases hdl : env.downloadOk chosen = true
  · refine ⟨?_, ?_, ?_, fun _ => ?_⟩ <;>
      simp [installLauncherPhase, hpkg, hdl]
  · refine ⟨?_, ?_, ?_, fun h => absurd h hdl⟩ <;>
      simp [installLauncherPhase, hpkg, hdl]

/-- C2 witness: the amended statement at the concrete degraded
environment. -/
theorem C2_degraded_identification_witness :
    IAction.push "Litechair.apk" ∉ installLauncherPhase envNoAapt true "Litechair.apk"
    ∧ (∀ p, IAction.setDefaultLauncher p ∉ installLauncherPhase envNoAapt true "Litechair.apk")
    ∧ IAction.manualConfigMsg "Litechair.apk"
        ∈ installLauncherPhase envNoAapt true "Litechair.apk" :=
  ⟨(C2_degraded_identification envNoAapt "Litechair.apk" rfl).1 "Litechair.apk",
   (C2_degraded_identification envNoAapt "Litechair.apk" rfl).2.2.1,
   (C2_degraded_identification envNoAapt "Litechair.apk" rfl).2.2.2 rfl⟩

/-! ## Uninstall orchestrator (`wipe_liteageos_components`, main.py:531-575) -/

/-- The world a wipe run observes: which assets are already cached, whether
a best-effort fetch produces the missing file, the identifier-tool state,
and the per-package uninstall outcome. -/
structure WipeEnv where
  cached : String → Bool
  fetchOk : String → Bool
  aapt_available : Bool
  aaptPkg : String → Option String
  uninstallOk : String → Bool
  deriving Inhabited

/-- The `packages_to_uninstall` list (main.py:539-564): the two fixed
launcher identities, then per component the identity resolved from its
(possibly just fetched) asset, then the three fixed force-remove
identities.  A component whose asset is absent even after the fetch
attempt, or whose identity stays unresolved, contributes nothing. -/
def wipeTargets (env : WipeEnv) : List String :=
  ["app.lawnchair.nightly", "ch.deletescape.lawnchair"]
  ++ LINEAGEOS_COMPONENTS.filterMap (fun c =>
      if env.cached c.1 || env.fetchOk c.1 then
        get_package_name_from_apk env.aapt_available env.aaptPkg c.1
      else none)
  ++ ["org.lineageos.etar", "org.lineageos.aperture.dev", "com.android.deskclock"]

/-- Observable steps of a wipe run. -/
inductive WAction where
  | download (fn : String)
  | uninstallAttempt (pkg : String)
  deriving DecidableEq, Repr

/-- The best-effort fetches the target-collection loop performs for
components not already cached (main.py:549-550). -/
def wipeDownloads (env : WipeEnv) : List WAction :=
  LINEAGEOS_COMPONENTS.filterMap (fun c =>
    if env.cached c.1 then none else some (.download c.1))

/-- Embedding of `wipe_liteageos_components` (main.py:531-575).  Any
confirmation whose lower-cased form is not `y` returns before any action.
The uninstall loop runs over `set(packages_to_uninstall)`; Python's set
iteration order is unspecified, so the embedding fixes the first-occurrence
order of `dedup` — every property verified about it is order-independent. -/
def wipe_liteageos_components (env : WipeEnv) (confirm : String) : List WAction :=
  if pyLower confirm = "y" then
    wipeDownloads env ++ (wipeTargets env).dedup.map WAction.uninstallAttempt
  else []

/-- The uninstall loop with its per-package outcomes (main.py:567-573): one
`pm uninstall --user 0` per element of the deduplicated set, paired with
its success bit; the loop body only logs on failure and never breaks. -/
def wipeResults (env : WipeEnv) : List (String × Bool) :=
  (wipeTargets env).dedup.map (fun p => (p, env.uninstallOk p))

/-- The fetch steps of a wipe run are never uninstall attempts. -/
theorem uninstallAttempt_not_mem_wipeDownloads (env : WipeEnv) (p : String) :
    WAction.uninstallAttempt p ∉ wipeDownloads env := by
  intro h
  rcases List.mem_filterMap.mp h with ⟨c, -, heq⟩
  split at heq <;> simp_all

/-- C5: in a confirmed run, each identity of the merged target set receives
exactly one uninstall attempt (identities contributed several times
collapse to one), identities outside the set receive none, and the
attempted sequence is the whole deduplicated set regardless of the
per-package outcomes — no failure cuts the loop short. -/
theorem C5_wipe_dedup_complete (env : WipeEnv) (p : String) :
    (p ∈ wipeTargets env →
      (wipe_liteageos_components env "y").count (WAction.uninstallAttempt p) = 1)
    ∧ (p ∉ wipeTargets env →
      (wipe_liteageos_components env "y").count (WAction.uninstallAttempt p) = 0)
    ∧ (wipeResults env).map Prod.fst = (wipeTargets env).dedup := by
  have hinj : Function.Injective WAction.uninstallAttempt := fun a b h => by
    cases h; rfl
  have hcount : ∀ l : List String,
      (wipeDownloads env ++ l.map WAction.uninstallAttempt).count
        (WAction.uninstallAttempt p) = l.count p := by
    intro l
    rw [List.count_append,
      List.count_eq_zero.mpr (uninstallAttempt_not_mem_wipeDownloads env p),
      List.count_map_of_injective _ _ hinj, zero_add]
  have hy : pyLower "y" = "y" := by decide
  refine ⟨fun hp => ?_, fun hp => ?_, ?_⟩
  · rw [wipe_liteageos_components, if_pos hy, hcount, List.count_dedup, if_pos hp]
  · rw [wipe_liteageos_components, if_pos hy, hcount, List.count_dedup, if_neg hp]
  · simp only [wipeResults, List.map_map]
    exact List.map_id ((wipeTargets env).dedup)

/-- A concrete wipe environment in which every component's identity
resolves to `org.lineageos.etar`, which is also on the fixed force-remove
list, and every uninstall fails. -/
def envWipeDup : WipeEnv where
  cached := fun _ => true
  fetchOk := fun _ => true
  aapt_available := true
  aaptPkg := fun _ => some "org.lineageos.etar"
  uninstallOk := fun _ => false

/-- C5 witness: even contributed by ten sources, `org.lineageos.etar` is
attempted exactly once; an identity outside the set is never attempted. -/
theorem C5_wipe_dedup_complete_witness :
    (wipe_liteageos_components envWipeDup "y").count
      (WAction.uninstallAttempt "org.lineageos.etar") = 1
    ∧ (wipe_liteageos_components envWipeDup "y").count
      (WAction.uninstallAttempt "com.example.absent") = 0 :=
  ⟨(C5_wipe_dedup_complete envWipeDup "org.lineageos.etar").1 (by decide),
   (C5_wipe_dedup_complete envWipeDup "com.example.absent").2.1 (by decide)⟩

/-- C9: any confirmation whose lower-cased form differs from the
affirmative `y` aborts the wipe with no actions at all — no download, no
uninstall attempt. -/
theorem C9_confirmation_gate (env : WipeEnv) (confirm : String)
    (h : pyLower confirm ≠ "y") :
    wipe_liteageos_components env confirm = [] := by
  simp [wipe_liteageos_components, h]

/-- C9 witness: the reply `n` (and the empty reply) produce no actions. -/
theorem C9_confirmation_gate_witness :
    wipe_liteageos_components envWipeDup "n" = []
    ∧ wipe_liteageos_components envWipeDup "" = [] :=
  ⟨C9_confirmation_gate envWipeDup "n" (by decide),
   C9_confirmation_gate envWipeDup "" (by decide)⟩

end Liteage
